import Mathlib

/-!
Verification of the `nodejs-video-intelligence` client library.

Part 1 embeds the generated glue code that is present in the repository:
the `annotateVideo` method and constructor wiring of
`VideoIntelligenceServiceClient` (src/unnamed/part_000) and the package
index (`src/src/index.js`).

Part 2 models the long-running-operation (LRO) core that the repository
delegates to its RPC runtime; the spec designs it (OperationHandle,
Poller, ResultFuture) but its code is not among the repository files, so
those definitions are modelled from the spec.
-/

namespace VideoIntelligence

/-! ## JavaScript value model

The glue code only inspects its arguments through `instanceof Function`,
strict comparison with `undefined`, and truthiness (`x || {}`), so a
JavaScript value is modelled by its shape; objects and functions carry an
identity. `emptyObj` is the fresh `{}` literal the code substitutes. -/

inductive JsVal where
  | undefinedV
  | nullV
  | boolV (b : Bool)
  | numV (n : Int)
  | strV (s : String)
  | emptyObj
  | objV (oid : Nat)
  | funcV (fid : Nat)
deriving DecidableEq, Repr

/-- Truthiness of a JavaScript value (`undefined`, `null`, `false`, `0`,
and the empty string are falsy; objects and functions are truthy). -/
def JsVal.truthy : JsVal → Bool
  | .undefinedV => false
  | .nullV => false
  | .boolV b => b
  | .numV n => n != 0
  | .strV s => s != ""
  | .emptyObj => true
  | .objV _ => true
  | .funcV _ => true

/-- The `options instanceof Function` test. -/
def JsVal.isFunction : JsVal → Bool
  | .funcV _ => true
  | _ => false

/-! ## The client's annotateVideo method (src/unnamed/part_000, lines 372-381)

```js
annotateVideo(request, options, callback) {
  if (options instanceof Function && callback === undefined) {
    callback = options;
    options = {};
  }
  request = request || {};
  options = options || {};
  return this._innerApiCalls.annotateVideo(request, options, callback);
}
```
-/

/-- Value of `options` after the callback-shift branch. -/
def shiftedOptions (options callback : JsVal) : JsVal :=
  if options.isFunction && callback == JsVal.undefinedV then JsVal.emptyObj else options

/-- Value of `callback` after the callback-shift branch. -/
def shiftedCallback (options callback : JsVal) : JsVal :=
  if options.isFunction && callback == JsVal.undefinedV then options else callback

/-- The defaulting idiom `x = x || {}`. -/
def orEmpty (v : JsVal) : JsVal :=
  if v.truthy then v else JsVal.emptyObj

/-- The `_innerApiCalls` dictionary: method name to the call produced by
`gaxModule.createApiCall`; the call's result type is abstract. -/
structure Client (R : Type) where
  innerApiCalls : List (String × (JsVal → JsVal → JsVal → R))

/-- Line 178: `const videoIntelligenceServiceStubMethods = ['annotateVideo'];` -/
def videoIntelligenceServiceStubMethods : List String := ["annotateVideo"]

/-- Constructor loop of lines 179-193: for each stub method name, store
the api call built for that name under that name in `_innerApiCalls`. -/
def mkClient {R : Type} (createApiCall : String → JsVal → JsVal → JsVal → R) : Client R :=
  ⟨videoIntelligenceServiceStubMethods.map fun m => (m, createApiCall m)⟩

/-- Lines 372-381: shift the callback when `options` is a function and
`callback` is `undefined`, default falsy `request`/`options` to `{}`, and
forward to `this._innerApiCalls.annotateVideo`. Property access on a
missing key is `Option`-valued. -/
def Client.annotateVideo {R : Type} (c : Client R) (request options callback : JsVal) :
    Option R :=
  (c.innerApiCalls.lookup "annotateVideo").map fun call =>
    call (orEmpty request) (orEmpty (shiftedOptions options callback))
      (shiftedCallback options callback)

/-! ## The package index (src/src/index.js) -/

inductive ApiVersion where
  | v1
  | v1beta2
  | v1p1beta1
  | v1p2beta1
  | v1p3beta1
deriving DecidableEq, Repr

def ApiVersion.name : ApiVersion → String
  | .v1 => "v1"
  | .v1beta2 => "v1beta2"
  | .v1p1beta1 => "v1p1beta1"
  | .v1p2beta1 => "v1p2beta1"
  | .v1p3beta1 => "v1p3beta1"

/-- Lines 46-52: `gapic` maps each version to the module required from
`./<version>`; the module type is abstract. -/
def gapic {M : Type} (requireM : String → M) : ApiVersion → M :=
  fun v => requireM ("./" ++ v.name)

/-- The shape of `module.exports`: the top-level export object plus the
named version properties assigned onto it. -/
structure PackageExports (M : Type) where
  top : M
  named : List (String × M)

/-- Lines 108-143: `module.exports = gapic.v1` and then
`module.exports.<version> = gapic.<version>` for the five versions. -/
def moduleExports {M : Type} (requireM : String → M) : PackageExports M :=
  { top := gapic requireM ApiVersion.v1
    named :=
      [("v1", gapic requireM ApiVersion.v1),
       ("v1beta2", gapic requireM ApiVersion.v1beta2),
       ("v1p1beta1", gapic requireM ApiVersion.v1p1beta1),
       ("v1p2beta1", gapic requireM ApiVersion.v1p2beta1),
       ("v1p3beta1", gapic requireM ApiVersion.v1p3beta1)] }

/-! ## Constructor option resolution (src/unnamed/part_000, lines 57-87, 199-216)

```js
const servicePath =
  opts.servicePath || opts.apiEndpoint || this.constructor.servicePath;
opts = Object.assign(
  { clientConfig: {}, port: this.constructor.port, servicePath },
  opts
);
```

An option is `some v` when the key is present with string (or number)
value `v` and `none` when absent; the only falsy string is `""`. -/

structure ClientOpts where
  servicePath : Option String
  apiEndpoint : Option String
  port : Option Nat
deriving DecidableEq, Repr

/-- Line 200: the static `servicePath` getter. -/
def defaultServicePath : String := "videointelligence.googleapis.com"

/-- Line 215: the static `port` getter. -/
def defaultPort : Nat := 443

/-- The `a || b` chain on an optional string: `a` when present and
non-empty (truthy), otherwise `b`. -/
def jsOrStr (a : Option String) (b : String) : String :=
  match a with
  | some s => if s ≠ "" then s else b
  | none => b

/-- Lines 71-72: `opts.servicePath || opts.apiEndpoint || default`. -/
def computedServicePath (opts : ClientOpts) : String :=
  jsOrStr opts.servicePath (jsOrStr opts.apiEndpoint defaultServicePath)

/-- The options `Object.assign` produces (lines 75-82): each default is
kept only when `opts` does not carry the key itself. -/
structure AssignedOpts where
  servicePath : String
  port : Nat
deriving DecidableEq, Repr

/-- Lines 71-82: `Object.assign({port: default, servicePath: computed}, opts)`;
a key present in `opts` overrides the default, whatever its value. -/
def assignOpts (opts : ClientOpts) : AssignedOpts :=
  { servicePath :=
      match opts.servicePath with
      | some s => s
      | none => computedServicePath opts
    port :=
      match opts.port with
      | some p => p
      | none => defaultPort }

/-- The claim's reading of the effective service path: `opts.servicePath`
if present, otherwise `opts.apiEndpoint` if present, otherwise the
default. -/
def claimedServicePath (opts : ClientOpts) : String :=
  match opts.servicePath with
  | some s => s
  | none =>
    match opts.apiEndpoint with
    | some a => a
    | none => defaultServicePath

/-- The amended effective service path: `opts.servicePath` if the key is
present, otherwise `opts.apiEndpoint` if present and non-empty (truthy),
otherwise the default. -/
def amendedServicePath (opts : ClientOpts) : String :=
  match opts.servicePath with
  | some s => s
  | none =>
    match opts.apiEndpoint with
    | some a => if a ≠ "" then a else defaultServicePath
    | none => defaultServicePath

/-! ## The long-running-operation core

Modelled from the spec: the repository delegates the LRO lifecycle to its
RPC runtime, so none of the code below is among the repository files; the
definitions follow the spec's data model (section 3), component design
(section 4) and error taxonomy (section 7). Progress/result payloads are
opaque strings. -/

/-- Modelled from the spec: a remote failure payload (code + message). -/
structure RpcError where
  code : Nat
  message : String
deriving DecidableEq, Repr

/-- Modelled from the spec: the `OperationHandle` state container of
section 3 (id, done, metadata, result, error). -/
structure OperationHandle where
  id : String
  done : Bool
  metadata : Option String
  result : Option String
  error : Option RpcError
deriving DecidableEq, Repr

/-- A fresh handle: not done, nothing cached. -/
def initHandle (oid : String) : OperationHandle :=
  { id := oid, done := false, metadata := none, result := none, error := none }

/-- Modelled from the spec: the `{metadata, done, result|error}` payload
of one `fetchStatus` response (section 6). -/
structure StatusUpdate where
  metadata : Option String
  done : Bool
  result : Option String
  error : Option RpcError
deriving DecidableEq, Repr

/-- Modelled from the spec, section 4.1: `applyUpdate` overwrites
`metadata` unconditionally and, only when the handle is not already done,
sets `done` and exactly one of `result`/`error`; on an already-done
handle the rest is a no-op. -/
def applyUpdate (h : OperationHandle) (u : StatusUpdate) : OperationHandle :=
  if h.done then
    { h with metadata := u.metadata }
  else
    { h with
      metadata := u.metadata
      done := u.done
      result := if u.done then u.result else none
      error := if u.done && u.result.isNone then u.error else none }

/-- The handle reached from a fresh handle by a sequence of updates. -/
def reach (oid : String) (us : List StatusUpdate) : OperationHandle :=
  us.foldl applyUpdate (initHandle oid)

/-- The section 3 handle invariant: `result`/`error` only once `done`,
and never both. -/
def handleOk (h : OperationHandle) : Prop :=
  (h.result.isSome = true → h.done = true) ∧
  (h.error.isSome = true → h.done = true) ∧
  ¬(h.result.isSome = true ∧ h.error.isSome = true)

/-- Modelled from the spec: the terminal states of section 4.2's state
machine, with transport-derived local failure kept distinct from a
remote-reported operation failure (section 7's error taxonomy). -/
inductive Outcome where
  | succeeded
  | failedRemote (e : RpcError)
  | failedTransport
  | canceled
  | timedOut
deriving DecidableEq, Repr

/-- Classification of a handle that just became done: a remote-reported
error yields FAILED, otherwise SUCCEEDED. -/
def classifyTerminal (h : OperationHandle) : Outcome :=
  match h.error with
  | some e => Outcome.failedRemote e
  | none => Outcome.succeeded

/-- Modelled from the spec, section 9: the Poller's configuration struct
`{initialInterval, maxInterval, backoffMultiplier, maxRetries, deadline}`. -/
structure PollerConfig where
  initialInterval : Nat
  maxInterval : Nat
  backoffMultiplier : Nat
  maxRetries : Nat
  deadline : Option Nat
deriving DecidableEq, Repr

/-- Modelled from the spec, sections 3 and 4.2: the Poller owns its
handle, the current interval, the consecutive transport-failure count,
the cancellation flag and the terminal outcome; `attempts` counts fetches
issued, `sleeps` the interval waits performed, and `now` is the logical
clock the deadline is checked against. -/
structure PollerState where
  cfg : PollerConfig
  handle : OperationHandle
  interval : Nat
  retries : Nat
  attempts : Nat
  canceledFlag : Bool
  terminal : Option Outcome
  sleeps : Nat
  now : Nat
deriving DecidableEq, Repr

/-- A Poller freshly bound to operation `oid`. -/
def initPoller (cfg : PollerConfig) (oid : String) : PollerState :=
  { cfg := cfg, handle := initHandle oid, interval := cfg.initialInterval,
    retries := 0, attempts := 0, canceledFlag := false, terminal := none,
    sleeps := 0, now := 0 }

/-- Backoff of section 4.2 step 3: grow the interval by the configured
multiplicative factor up to the configured ceiling. -/
def growInterval (cfg : PollerConfig) (i : Nat) : Nat :=
  min (i * cfg.backoffMultiplier) cfg.maxInterval

/-- Section 4.2 step 5: the deadline has passed when it is set and
`now() > deadline`. -/
def deadlineHit (s : PollerState) : Bool :=
  match s.cfg.deadline with
  | some d => decide (d < s.now)
  | none => false

/-- Modelled from the spec, section 4.2: one iteration of the poll loop.
A terminal poller does nothing. Otherwise the cancellation flag is
checked before the fetch, then the deadline; then one fetch is issued
(`none` is a transport error). A transport failure beyond `maxRetries`
consecutive ones is a terminal local error, otherwise it backs off and
retries. A successful fetch is applied to the handle; if the handle is
now done the poller stops without sleeping, else it sleeps for the
current interval and grows it. -/
def stepPoller (fetch : Nat → Option StatusUpdate) (s : PollerState) : PollerState :=
  if s.terminal.isSome then s
  else if s.canceledFlag then
    { s with terminal := some Outcome.canceled }
  else if deadlineHit s then
    { s with terminal := some Outcome.timedOut }
  else
    match fetch s.attempts with
    | none =>
      if s.cfg.maxRetries < s.retries + 1 then
        { s with attempts := s.attempts + 1, retries := s.retries + 1,
                 terminal := some Outcome.failedTransport }
      else
        { s with attempts := s.attempts + 1, retries := s.retries + 1,
                 sleeps := s.sleeps + 1, now := s.now + s.interval,
                 interval := growInterval s.cfg s.interval }
    | some u =>
      let h := applyUpdate s.handle u
      if h.done then
        { s with handle := h, attempts := s.attempts + 1,
                 terminal := some (classifyTerminal h) }
      else
        { s with handle := h, attempts := s.attempts + 1, retries := 0,
                 sleeps := s.sleeps + 1, now := s.now + s.interval,
                 interval := growInterval s.cfg s.interval }

/-- Iterating the poll loop. -/
def runPoller (fetch : Nat → Option StatusUpdate) (n : Nat) (s : PollerState) : PollerState :=
  (stepPoller fetch)^[n] s

/-- Modelled from the spec, section 4.2 step 4 and section 4.3: request
cancellation by setting the flag the loop checks before each fetch; a
no-op on an already terminal poller. -/
def cancelPoller (s : PollerState) : PollerState :=
  if s.terminal.isSome then s else { s with canceledFlag := true }

/-- A completion-listener record: its identity and whether its one
terminal event has been delivered. -/
structure ListenerRec where
  lid : Nat
  notified : Bool
deriving DecidableEq, Repr

/-- Modelled from the spec, section 4.3: the caller-facing future wraps
the poller, keeps the registered completion listeners, and `events` logs
every terminal-event delivery (listener identity, outcome). -/
structure ResultFuture where
  poller : PollerState
  listeners : List ListenerRec
  events : List (Nat × Outcome)
deriving DecidableEq, Repr

def initFuture (cfg : PollerConfig) (oid : String) : ResultFuture :=
  { poller := initPoller cfg oid, listeners := [], events := [] }

/-- Deliver outcome `o` to every listener not yet notified and mark all
listeners notified. -/
def deliverAll (f : ResultFuture) (o : Outcome) : ResultFuture :=
  { f with
    listeners := f.listeners.map fun r => { r with notified := true }
    events := f.events ++ (f.listeners.filter fun r => !r.notified).map fun r => (r.lid, o) }

/-- Modelled from the spec, sections 4.3 and 5: one scheduling tick of
the future: advance the poller one step, and when terminal deliver the
terminal event to the listeners that have not received it. -/
def stepFuture (fetch : Nat → Option StatusUpdate) (f : ResultFuture) : ResultFuture :=
  let p := stepPoller fetch f.poller
  match p.terminal with
  | some o => deliverAll { f with poller := p } o
  | none => { f with poller := p }

def runFuture (fetch : Nat → Option StatusUpdate) (n : Nat) (f : ResultFuture) : ResultFuture :=
  (stepFuture fetch)^[n] f

/-- Modelled from the spec, section 4.3: `onComplete` registers a
completion listener; when the operation is already terminal the terminal
event is delivered to it immediately instead of being lost. -/
def onComplete (f : ResultFuture) (l : Nat) : ResultFuture :=
  match f.poller.terminal with
  | some o =>
    { f with listeners := f.listeners ++ [⟨l, true⟩], events := f.events ++ [(l, o)] }
  | none => { f with listeners := f.listeners ++ [⟨l, false⟩] }

/-- Modelled from the spec, section 4.3: `cancel()` forwards to the
Poller's cancellation path. -/
def futureCancel (f : ResultFuture) : ResultFuture :=
  { f with poller := cancelPoller f.poller }

/-- How many terminal events listener `l` has received. -/
def deliveredCount (l : Nat) (f : ResultFuture) : Nat :=
  (f.events.filter fun e => e.1 == l).length

/-! ## Helper lemmas -/

/-- A falsy JavaScript value is never a function. -/
theorem JsVal.isFunction_eq_false_of_not_truthy (v : JsVal) (h : v.truthy = false) :
    v.isFunction = false := by
  cases v <;> simp_all [JsVal.truthy, JsVal.isFunction]

/-- An already-done handle stays done. -/
theorem applyUpdate_done_of_done (h : OperationHandle) (u : StatusUpdate)
    (hd : h.done = true) : (applyUpdate h u).done = true := by
  simp [applyUpdate, hd]

/-- Done-ness survives any tail of updates. -/
theorem foldl_applyUpdate_done (us : List StatusUpdate) :
    ∀ h : OperationHandle, h.done = true → (us.foldl applyUpdate h).done = true := by
  induction us with
  | nil => intro h hd; exact hd
  | cons u us ih => intro h hd; exact ih _ (applyUpdate_done_of_done h u hd)

/-- One update preserves the handle invariant. -/
theorem handleOk_applyUpdate (h : OperationHandle) (u : StatusUpdate)
    (hh : handleOk h) : handleOk (applyUpdate h u) := by
  obtain ⟨h1, h2, h3⟩ := hh
  unfold applyUpdate handleOk
  cases hdone : h.done with
  | true => simp_all
  | false =>
    cases hud : u.done with
    | false => simp
    | true =>
      cases hur : u.result with
      | some r => simp
      | none => simp

/-- A whole sequence of updates preserves the handle invariant. -/
theorem handleOk_foldl (us : List StatusUpdate) :
    ∀ h : OperationHandle, handleOk h → handleOk (us.foldl applyUpdate h) := by
  induction us with
  | nil => intro h hh; exact hh
  | cons u us ih => intro h hh; exact ih _ (handleOk_applyUpdate h u hh)

/-! ## The claims about the repository's glue code -/

/-- C1: `annotateVideo` performs no computation beyond argument
defaulting: it returns exactly the forwarding of the (defaulted)
arguments to the runtime call the constructor stored under
`'annotateVideo'`, and that is the only service method wired up. -/
theorem annotateVideo_forwards_only {R : Type}
    (createApiCall : String → JsVal → JsVal → JsVal → R)
    (request options callback : JsVal) :
    (mkClient createApiCall).innerApiCalls.map Prod.fst = ["annotateVideo"] ∧
    (mkClient createApiCall).annotateVideo request options callback =
      some (createApiCall "annotateVideo" (orEmpty request)
        (orEmpty (shiftedOptions options callback)) (shiftedCallback options callback)) :=
  ⟨rfl, rfl⟩

/-- C8: the package exports a client module for each of the five API
versions under those names, and the top-level export is identical to the
v1 export. -/
theorem package_exports_versions {M : Type} (requireM : String → M) :
    (moduleExports requireM).named.map Prod.fst =
      ["v1", "v1beta2", "v1p1beta1", "v1p2beta1", "v1p3beta1"] ∧
    (∀ v : ApiVersion,
      (moduleExports requireM).named.lookup v.name = some (gapic requireM v)) ∧
    (moduleExports requireM).named.lookup "v1" = some (moduleExports requireM).top := by
  refine ⟨rfl, ?_, rfl⟩
  intro v
  cases v <;> rfl

/-- C9: when `options` is a function and `callback` is `undefined` the
call behaves exactly as `annotateVideo(request, {}, options)`; a falsy
`request` or `options` behaves exactly as the empty object. -/
theorem annotateVideo_defaulting {R : Type} (c : Client R)
    (request options callback : JsVal) :
    (options.isFunction = true → callback = JsVal.undefinedV →
      c.annotateVideo request options callback =
        c.annotateVideo request JsVal.emptyObj options) ∧
    (request.truthy = false →
      c.annotateVideo request options callback =
        c.annotateVideo JsVal.emptyObj options callback) ∧
    (options.truthy = false →
      c.annotateVideo request options callback =
        c.annotateVideo request JsVal.emptyObj callback) := by
  refine ⟨?_, ?_, ?_⟩
  · intro hf hcb
    subst hcb
    have h1 : shiftedOptions options JsVal.undefinedV = JsVal.emptyObj := by
      simp [shiftedOptions, hf]
    have h2 : shiftedCallback options JsVal.undefinedV = options := by
      simp [shiftedCallback, hf]
    have h3 : shiftedOptions JsVal.emptyObj options = JsVal.emptyObj := rfl
    have h4 : shiftedCallback JsVal.emptyObj options = options := rfl
    simp only [Client.annotateVideo, h1, h2, h3, h4]
  · intro hr
    have h1 : orEmpty request = JsVal.emptyObj := by simp [orEmpty, hr]
    have h2 : orEmpty JsVal.emptyObj = JsVal.emptyObj := rfl
    simp only [Client.annotateVideo, h1, h2]
  · intro ho
    have hnf := JsVal.isFunction_eq_false_of_not_truthy options ho
    have h1 : shiftedOptions options callback = options := by
      simp [shiftedOptions, hnf]
    have h2 : shiftedCallback options callback = callback := by
      simp [shiftedCallback, hnf]
    have h3 : orEmpty options = JsVal.emptyObj := by simp [orEmpty, ho]
    have h4 : shiftedOptions JsVal.emptyObj callback = JsVal.emptyObj := rfl
    have h5 : shiftedCallback JsVal.emptyObj callback = callback := rfl
    have h6 : orEmpty JsVal.emptyObj = JsVal.emptyObj := rfl
    simp only [Client.annotateVideo, h1, h2, h3, h4, h5, h6]

/-- C10 counterexample: with `apiEndpoint` present but empty (and no
`servicePath`), the code resolves the default service path while the
claim as stated says the empty `apiEndpoint` value is used. -/
theorem servicePath_claim_fails_on_empty_apiEndpoint :
    (assignOpts { servicePath := none, apiEndpoint := some "", port := none }).servicePath ≠
      claimedServicePath { servicePath := none, apiEndpoint := some "", port := none } := by
  decide

/-- C10 amended: the effective service path is `opts.servicePath` when
that key is present, otherwise `opts.apiEndpoint` when present and
non-empty, otherwise the default; the effective port is `opts.port` when
present, otherwise 443; caller-supplied values are never overridden. -/
theorem assignOpts_resolution (opts : ClientOpts) :
    (assignOpts opts).servicePath = amendedServicePath opts ∧
    (assignOpts opts).port = opts.port.getD defaultPort ∧
    (∀ s, opts.servicePath = some s → (assignOpts opts).servicePath = s) ∧
    (∀ p, opts.port = some p → (assignOpts opts).port = p) := by
  obtain ⟨sp, ae, po⟩ := opts
  refine ⟨?_, ?_, ?_, ?_⟩
  · cases sp <;> cases ae <;>
      simp [assignOpts, amendedServicePath, computedServicePath, jsOrStr]
  · cases po <;> simp [assignOpts]
  · intro s hs
    cases sp <;> simp_all [assignOpts]
  · intro p hp
    cases po <;> simp_all [assignOpts]

/-! ## The claims about the LRO core (spec-modelled) -/

/-- C2: along every update sequence from a fresh handle, `done` is
monotonic, at most one of `result`/`error` is ever non-null, and either
being non-null implies `done`. -/
theorem handle_invariants (oid : String) (us vs : List StatusUpdate) :
    ((reach oid us).done = true → (reach oid (us ++ vs)).done = true) ∧
    handleOk (reach oid (us ++ vs)) := by
  constructor
  · intro hd
    rw [reach, List.foldl_append]
    exact foldl_applyUpdate_done vs _ hd
  · rw [reach]
    exact handleOk_foldl _ _ (by simp [handleOk, initHandle])

/-- C3: on an already-done handle, `applyUpdate` changes none of `done`,
`result`, `error`. -/
theorem applyUpdate_noop_after_done (h : OperationHandle) (u : StatusUpdate)
    (hd : h.done = true) :
    (applyUpdate h u).done = h.done ∧ (applyUpdate h u).result = h.result ∧
      (applyUpdate h u).error = h.error := by
  simp [applyUpdate, hd]

/-- A done handle with a result, hit by a late duplicate response. -/
def doneHandle : OperationHandle :=
  { id := "op-1", done := true, metadata := some "pct:100", result := some "labels:cat",
    error := none }

def lateUpdate : StatusUpdate :=
  { metadata := some "late", done := true, result := none, error := some ⟨13, "boom"⟩ }

/-- C3 witness: the no-op holds at a concrete done handle and update. -/
theorem applyUpdate_noop_after_done_witness :
    (applyUpdate doneHandle lateUpdate).done = doneHandle.done ∧
    (applyUpdate doneHandle lateUpdate).result = doneHandle.result ∧
      (applyUpdate doneHandle lateUpdate).error = doneHandle.error :=
  applyUpdate_noop_after_done doneHandle lateUpdate rfl

/-! ## Poller and future lemmas -/

/-- A terminal poller is a fixed point of the loop. -/
theorem stepPoller_of_terminal (fetch : Nat → Option StatusUpdate) (s : PollerState)
    (h : s.terminal.isSome = true) : stepPoller fetch s = s := by
  simp [stepPoller, h]

/-- A terminal poller stays fixed under any number of steps. -/
theorem runPoller_of_terminal (fetch : Nat → Option StatusUpdate) (s : PollerState)
    (h : s.terminal.isSome = true) (k : Nat) : runPoller fetch k s = s :=
  Function.iterate_fixed (stepPoller_of_terminal fetch s h) k

/-- A fresh poller has not passed its deadline: its clock is zero. -/
theorem deadlineHit_init (cfg : PollerConfig) (oid : String) :
    deadlineHit (initPoller cfg oid) = false := by
  unfold deadlineHit initPoller
  cases cfg.deadline with
  | none => rfl
  | some d => exact decide_eq_false (Nat.not_lt_zero d)

/-- One step under a set cancellation flag: terminal CANCELED. -/
theorem stepPoller_canceled (fetch : Nat → Option StatusUpdate) (s : PollerState)
    (h1 : s.terminal = none) (h2 : s.canceledFlag = true) :
    stepPoller fetch s = { s with terminal := some Outcome.canceled } := by
  simp [stepPoller, h1, h2]

/-- One step on a transport error with retry budget left: back off and
retry. -/
theorem stepPoller_transport_retry (fetch : Nat → Option StatusUpdate) (s : PollerState)
    (h1 : s.terminal = none) (h2 : s.canceledFlag = false) (h3 : deadlineHit s = false)
    (h4 : fetch s.attempts = none) (h5 : ¬ s.cfg.maxRetries < s.retries + 1) :
    stepPoller fetch s = { s with attempts := s.attempts + 1, retries := s.retries + 1,
                                  sleeps := s.sleeps + 1, now := s.now + s.interval,
                                  interval := growInterval s.cfg s.interval } := by
  simp [stepPoller, h1, h2, h3, h4, h5]

/-- One step on a transport error past the retry budget: terminal local
transport error. -/
theorem stepPoller_transport_exhausted (fetch : Nat → Option StatusUpdate) (s : PollerState)
    (h1 : s.terminal = none) (h2 : s.canceledFlag = false) (h3 : deadlineHit s = false)
    (h4 : fetch s.attempts = none) (h5 : s.cfg.maxRetries < s.retries + 1) :
    stepPoller fetch s = { s with attempts := s.attempts + 1, retries := s.retries + 1,
                                  terminal := some Outcome.failedTransport } := by
  simp [stepPoller, h1, h2, h3, h4, h5]

/-- One step on a successful fetch whose update makes the handle done:
apply it and stop, without sleeping. -/
theorem stepPoller_fetch_done (fetch : Nat → Option StatusUpdate) (s : PollerState)
    (u : StatusUpdate) (h1 : s.terminal = none) (h2 : s.canceledFlag = false)
    (h3 : deadlineHit s = false) (h4 : fetch s.attempts = some u)
    (h5 : (applyUpdate s.handle u).done = true) :
    stepPoller fetch s = { s with handle := applyUpdate s.handle u,
                                  attempts := s.attempts + 1,
                                  terminal := some (classifyTerminal (applyUpdate s.handle u)) } := by
  simp [stepPoller, h1, h2, h3, h4, h5]

/-- While every fetch is a transport error and the retry budget is not
yet exhausted, the loop keeps retrying: after  `k ≤ maxRetries`  steps it
has made `k` failed attempts and is not terminal. -/
theorem runPoller_transport_inv (fetch : Nat → Option StatusUpdate) (cfg : PollerConfig)
    (oid : String) (hdl : cfg.deadline = none)
    (hfail : ∀ k, k ≤ cfg.maxRetries → fetch k = none) :
    ∀ k, k ≤ cfg.maxRetries →
      (runPoller fetch k (initPoller cfg oid)).cfg = cfg ∧
      (runPoller fetch k (initPoller cfg oid)).terminal = none ∧
      (runPoller fetch k (initPoller cfg oid)).canceledFlag = false ∧
      (runPoller fetch k (initPoller cfg oid)).retries = k ∧
      (runPoller fetch k (initPoller cfg oid)).attempts = k := by
  intro k
  induction k with
  | zero => intro _; exact ⟨rfl, rfl, rfl, rfl, rfl⟩
  | succ k ih =>
    intro hk
    obtain ⟨hcfg, hterm, hflag, hret, hatt⟩ := ih (Nat.le_of_succ_le hk)
    have hstep : runPoller fetch (k + 1) (initPoller cfg oid) =
        stepPoller fetch (runPoller fetch k (initPoller cfg oid)) :=
      Function.iterate_succ_apply' _ _ _
    set s := runPoller fetch k (initPoller cfg oid) with hs
    have hdh : deadlineHit s = false := by
      unfold deadlineHit
      rw [hcfg, hdl]
    have hf : fetch s.attempts = none := by
      rw [hatt]; exact hfail k (Nat.le_of_succ_le hk)
    have hnr : ¬ s.cfg.maxRetries < s.retries + 1 := by
      rw [hcfg, hret]; omega
    rw [hstep, stepPoller_transport_retry fetch s hterm hflag hdh hf hnr]
    exact ⟨hcfg, hterm, hflag,
      show s.retries + 1 = k + 1 from by rw [hret],
      show s.attempts + 1 = k + 1 from by rw [hatt]⟩

/-- C5: when `fetchStatus` keeps failing with transport errors past the
retry ceiling, the loop stops with the transport-derived local error
(never a remote-reported one) after `maxRetries + 1` attempts, and no
further stepping ever changes the state: the future is never left
unresolved. -/
theorem transport_errors_beyond_ceiling_terminate (fetch : Nat → Option StatusUpdate)
    (cfg : PollerConfig) (oid : String) (hdl : cfg.deadline = none)
    (hfail : ∀ k, k ≤ cfg.maxRetries → fetch k = none) :
    (runPoller fetch (cfg.maxRetries + 1) (initPoller cfg oid)).terminal =
      some Outcome.failedTransport ∧
    (∀ e, (runPoller fetch (cfg.maxRetries + 1) (initPoller cfg oid)).terminal ≠
      some (Outcome.failedRemote e)) ∧
    (∀ k, runPoller fetch k (runPoller fetch (cfg.maxRetries + 1) (initPoller cfg oid)) =
      runPoller fetch (cfg.maxRetries + 1) (initPoller cfg oid)) := by
  obtain ⟨hcfg, hterm, hflag, hret, hatt⟩ :=
    runPoller_transport_inv fetch cfg oid hdl hfail cfg.maxRetries (Nat.le_refl _)
  have hstep : runPoller fetch (cfg.maxRetries + 1) (initPoller cfg oid) =
      stepPoller fetch (runPoller fetch cfg.maxRetries (initPoller cfg oid)) :=
    Function.iterate_succ_apply' _ _ _
  set s := runPoller fetch cfg.maxRetries (initPoller cfg oid) with hs
  have hdh : deadlineHit s = false := by
    unfold deadlineHit
    rw [hcfg, hdl]
  have hf : fetch s.attempts = none := by
    rw [hatt]; exact hfail _ (Nat.le_refl _)
  have hlt : s.cfg.maxRetries < s.retries + 1 := by
    rw [hcfg, hret]; omega
  have hstep2 := stepPoller_transport_exhausted fetch s hterm hflag hdh hf hlt
  refine ⟨?_, ?_, ?_⟩
  · rw [hstep, hstep2]
  · intro e
    rw [hstep, hstep2]
    simp
  · intro k
    rw [hstep, hstep2]
    exact runPoller_of_terminal fetch _ (by rfl) k

/-- A constantly failing transport and a small retry budget. -/
def sampleCfg : PollerConfig :=
  { initialInterval := 5, maxInterval := 45, backoffMultiplier := 2, maxRetries := 2,
    deadline := none }

def fetchNone : Nat → Option StatusUpdate := fun _ => none

/-- C5 witness: with a retry ceiling of 2 and every fetch a transport
error, three attempts end in the transport-derived terminal error. -/
theorem transport_errors_beyond_ceiling_witness :
    (runPoller fetchNone (sampleCfg.maxRetries + 1) (initPoller sampleCfg "op-1")).terminal =
      some Outcome.failedTransport ∧
    (∀ e, (runPoller fetchNone (sampleCfg.maxRetries + 1) (initPoller sampleCfg "op-1")).terminal ≠
      some (Outcome.failedRemote e)) ∧
    (∀ k, runPoller fetchNone k
        (runPoller fetchNone (sampleCfg.maxRetries + 1) (initPoller sampleCfg "op-1")) =
      runPoller fetchNone (sampleCfg.maxRetries + 1) (initPoller sampleCfg "op-1")) :=
  transport_errors_beyond_ceiling_terminate fetchNone sampleCfg "op-1" rfl (fun _ _ => rfl)

/-- C6: the first fetch happens immediately on start; when it already
reports `done`, the poller is terminal after one attempt with zero
sleeps, and nothing changes afterwards. -/
theorem first_fetch_is_immediate (fetch : Nat → Option StatusUpdate) (cfg : PollerConfig)
    (oid : String) (u : StatusUpdate) (h0 : fetch 0 = some u) (hdone : u.done = true) :
    (stepPoller fetch (initPoller cfg oid)).sleeps = 0 ∧
    (stepPoller fetch (initPoller cfg oid)).attempts = 1 ∧
    (stepPoller fetch (initPoller cfg oid)).terminal =
      some (classifyTerminal (applyUpdate (initHandle oid) u)) ∧
    (∀ k, runPoller fetch k (stepPoller fetch (initPoller cfg oid)) =
      stepPoller fetch (initPoller cfg oid)) := by
  have hfa : fetch (initPoller cfg oid).attempts = some u := h0
  have happ : (applyUpdate (initPoller cfg oid).handle u).done = true := by
    simp [applyUpdate, initPoller, initHandle, hdone]
  have hstep := stepPoller_fetch_done fetch (initPoller cfg oid) u rfl rfl
    (deadlineHit_init cfg oid) hfa happ
  rw [hstep]
  refine ⟨rfl, rfl, rfl, ?_⟩
  intro k
  exact runPoller_of_terminal fetch _ (by rfl) k

/-- A status response that is done on the very first poll. -/
def firstDone : StatusUpdate :=
  { metadata := some "pct:100", done := true, result := some "labels:cat", error := none }

def fetchFirstDone : Nat → Option StatusUpdate := fun _ => some firstDone

/-- C6 witness: a fetch that is done immediately completes the poller
with one attempt and zero sleeps. -/
theorem first_fetch_is_immediate_witness :
    (stepPoller fetchFirstDone (initPoller sampleCfg "op-1")).sleeps = 0 ∧
    (stepPoller fetchFirstDone (initPoller sampleCfg "op-1")).attempts = 1 ∧
    (stepPoller fetchFirstDone (initPoller sampleCfg "op-1")).terminal =
      some (classifyTerminal (applyUpdate (initHandle "op-1") firstDone)) ∧
    (∀ k, runPoller fetchFirstDone k (stepPoller fetchFirstDone (initPoller sampleCfg "op-1")) =
      stepPoller fetchFirstDone (initPoller sampleCfg "op-1")) :=
  first_fetch_is_immediate fetchFirstDone sampleCfg "op-1" firstDone rfl rfl

/-- C7: cancelling before any fetch completes puts the operation into the
terminal CANCELED state with no result and no remote error and no fetch
issued; cancel is a no-op on an already terminal poller, is idempotent,
and the future's cancel after terminal changes nothing. -/
theorem cancel_before_first_fetch (fetch : Nat → Option StatusUpdate) (cfg : PollerConfig)
    (oid : String) :
    (stepPoller fetch (cancelPoller (initPoller cfg oid))).terminal = some Outcome.canceled ∧
    (stepPoller fetch (cancelPoller (initPoller cfg oid))).handle.result = none ∧
    (stepPoller fetch (cancelPoller (initPoller cfg oid))).handle.error = none ∧
    (stepPoller fetch (cancelPoller (initPoller cfg oid))).attempts = 0 ∧
    (∀ s : PollerState, s.terminal.isSome = true → cancelPoller s = s) ∧
    (∀ s : PollerState, cancelPoller (cancelPoller s) = cancelPoller s) ∧
    (∀ f : ResultFuture, f.poller.terminal.isSome = true → futureCancel f = f) := by
  have hnoop : ∀ s : PollerState, s.terminal.isSome = true → cancelPoller s = s := by
    intro s h
    simp [cancelPoller, h]
  have hcanc : cancelPoller (initPoller cfg oid) =
      { initPoller cfg oid with canceledFlag := true } := rfl
  rw [hcanc, stepPoller_canceled fetch _ rfl rfl]
  refine ⟨rfl, rfl, rfl, rfl, hnoop, ?_, ?_⟩
  · intro s
    cases hterm : s.terminal.isSome with
    | true => rw [hnoop s hterm, hnoop s hterm]
    | false => simp [cancelPoller, hterm]
  · intro f h
    show { f with poller := cancelPoller f.poller } = f
    rw [hnoop f.poller h]

/-- A terminal future ticks to itself up to listener bookkeeping: its
poller stays put, every listener stays notified, and no new event is
delivered. -/
theorem stepFuture_of_terminal (fetch : Nat → Option StatusUpdate) (f : ResultFuture)
    (o : Outcome) (ht : f.poller.terminal = some o)
    (hn : ∀ r ∈ f.listeners, r.notified = true) :
    (stepFuture fetch f).poller.terminal = some o ∧
    (∀ r ∈ (stepFuture fetch f).listeners, r.notified = true) ∧
    (stepFuture fetch f).events = f.events := by
  have hfix : stepPoller fetch f.poller = f.poller :=
    stepPoller_of_terminal fetch f.poller (by rw [ht]; rfl)
  have hfilter : f.listeners.filter (fun r => !r.notified) = [] := by
    rw [List.filter_eq_nil_iff]
    intro r hr
    simp [hn r hr]
  have hsf : stepFuture fetch f = deliverAll f o := by
    unfold stepFuture
    simp only [hfix, ht]
  rw [hsf]
  refine ⟨ht, ?_, ?_⟩
  · intro r hr
    simp only [deliverAll, List.mem_map] at hr
    obtain ⟨a, _, rfl⟩ := hr
    rfl
  · simp [deliverAll, hfilter]

/-- Ticking a terminal, fully notified future any number of times
delivers nothing further. -/
theorem runFuture_of_terminal (fetch : Nat → Option StatusUpdate) (o : Outcome) :
    ∀ (n : Nat) (f : ResultFuture), f.poller.terminal = some o →
      (∀ r ∈ f.listeners, r.notified = true) →
      (runFuture fetch n f).events = f.events := by
  intro n
  induction n with
  | zero => intro f _ _; rfl
  | succ n ih =>
    intro f ht hn
    obtain ⟨ht2, hn2, hev⟩ := stepFuture_of_terminal fetch f o ht hn
    have hit : runFuture fetch (n + 1) f = runFuture fetch n (stepFuture fetch f) :=
      Function.iterate_succ_apply _ _ _
    rw [hit, ih (stepFuture fetch f) ht2 hn2, hev]

/-- C4: registering a completion listener on a future whose operation is
already terminal still delivers the terminal event to it — exactly once,
no matter how long the future keeps ticking afterwards. -/
theorem onComplete_after_terminal_delivers_once (fetch : Nat → Option StatusUpdate)
    (f : ResultFuture) (l : Nat) (o : Outcome)
    (ht : f.poller.terminal = some o)
    (hn : ∀ r ∈ f.listeners, r.notified = true)
    (hfresh : deliveredCount l f = 0) :
    deliveredCount l (onComplete f l) = 1 ∧
    ∀ n, deliveredCount l (runFuture fetch n (onComplete f l)) = 1 := by
  have hoc : onComplete f l =
      { f with listeners := f.listeners ++ [⟨l, true⟩], events := f.events ++ [(l, o)] } := by
    unfold onComplete
    rw [ht]
  have hcount : deliveredCount l (onComplete f l) = 1 := by
    rw [hoc]
    unfold deliveredCount at hfresh ⊢
    simp only [List.filter_append, List.length_append]
    rw [hfresh]
    simp
  refine ⟨hcount, ?_⟩
  intro n
  have ht2 : (onComplete f l).poller.terminal = some o := by rw [hoc]; exact ht
  have hn2 : ∀ r ∈ (onComplete f l).listeners, r.notified = true := by
    rw [hoc]
    intro r hr
    rcases List.mem_append.mp hr with h | h
    · exact hn r h
    · rw [List.mem_singleton.mp h]
  have hev := runFuture_of_terminal fetch o n (onComplete f l) ht2 hn2
  unfold deliveredCount at hcount ⊢
  rw [hev]
  exact hcount

/-- A future whose operation already succeeded, with no listeners yet. -/
def termFuture : ResultFuture :=
  { poller := { initPoller sampleCfg "op-1" with terminal := some Outcome.succeeded },
    listeners := [], events := [] }

/-- C4 witness: a listener registered on the already-succeeded future
receives the terminal event exactly once, whatever happens next. -/
theorem onComplete_after_terminal_witness :
    deliveredCount 7 (onComplete termFuture 7) = 1 ∧
    ∀ n, deliveredCount 7 (runFuture fetchNone n (onComplete termFuture 7)) = 1 :=
  onComplete_after_terminal_delivers_once fetchNone termFuture 7 Outcome.succeeded rfl
    (by intro r hr; simp [termFuture] at hr) rfl

end VideoIntelligence
